import Mathlib

/-!
Verification development for the Rome-rent data-cleanup pipeline
(`data-cleanup.py`).  The Python source is shallowly embedded: a pandas
row becomes an association list from column label to a `PyVal` scalar,
each normalizer becomes a Lean function on such rows, Python exceptions
that can escape a normalizer (`KeyError` from `row['missing']`,
`IndexError` from `[]`-indexing an empty split) are modelled with
`Except String`, and exceptions that the source catches (`ValueError`
from `float()` / `int()`) are modelled by `Option`-returning parsers.
Python floats are modelled as rationals: every numeric literal the
pipeline parses is a finite decimal, and no claim depends on binary
rounding, IEEE infinities or NaN payloads (pandas NaN cells are
modelled as the missing value `PyVal.none`).  Python `str.lower`,
`str.strip`, `str.isalpha` act on Unicode; the embedding uses the ASCII
versions, which agree on every string the pipeline's fixed vocabularies
and the concrete inputs below contain.
-/

/-- A scalar as it appears in a pandas cell: missing (`None`/`NaN`),
a bool, an int, a float (as an exact rational), or a string. -/
inductive PyVal where
  | none
  | bool (b : Bool)
  | int (n : Int)
  | float (q : ℚ)
  | str (s : String)
deriving DecidableEq

/-- One row of a dataframe: association list from column label to value. -/
def Row : Type := List (String × PyVal)

instance : DecidableEq Row := by
  unfold Row
  infer_instance

instance {ε α : Type} [DecidableEq ε] [DecidableEq α] : DecidableEq (Except ε α) := fun a b =>
  match a, b with
  | .error e, .error f =>
    match decEq e f with
    | isTrue h => isTrue (by rw [h])
    | isFalse h => isFalse (fun hh => h (by cases hh; rfl))
  | .ok x, .ok y =>
    match decEq x y with
    | isTrue h => isTrue (by rw [h])
    | isFalse h => isFalse (fun hh => h (by cases hh; rfl))
  | .error _, .ok _ => isFalse (fun hh => Except.noConfusion hh)
  | .ok _, .error _ => isFalse (fun hh => Except.noConfusion hh)

/-- Label lookup in a row (first matching label, as in pandas). -/
def rowGet? (r : Row) (k : String) : Option PyVal :=
  ((r : List (String × PyVal)).find? (fun kv => kv.1 = k)).map (fun kv => kv.2)

/-- Python `row.get(k, d)`: default on a missing label. -/
def rowGetD (r : Row) (k : String) (d : PyVal) : PyVal :=
  (rowGet? r k).getD d

/-- Python `row[k]`: raises `KeyError` on a missing label. -/
def rowGetItem (r : Row) (k : String) : Except String PyVal :=
  match rowGet? r k with
  | some v => .ok v
  | Option.none => .error ("KeyError: " ++ k)

/-- Does the character list start with the given pattern? -/
def hasPrefixList : List Char → List Char → Bool
  | [], _ => true
  | _ :: _, [] => false
  | p :: ps, c :: cs => p = c && hasPrefixList ps cs

/-- Substring containment on character lists (Python `pat in s`). -/
def containsSub (pat : List Char) : List Char → Bool
  | [] => pat.isEmpty
  | c :: cs => hasPrefixList pat (c :: cs) || containsSub pat cs

/-- Python `pat in s` on strings. -/
def strContains (s pat : String) : Bool :=
  containsSub pat.data s.data

/-- Fuel-driven core of `pyReplace`; the fuel is the text length, enough
because each step consumes at least one character of the text. -/
def replaceCharsAux (pat rep : List Char) : Nat → List Char → List Char
  | 0, l => l
  | _, [] => []
  | fuel + 1, c :: cs =>
    if pat ≠ [] && hasPrefixList pat (c :: cs) then
      rep ++ replaceCharsAux pat rep fuel ((c :: cs).drop pat.length)
    else
      c :: replaceCharsAux pat rep fuel cs

/-- Python `s.replace(pat, rep)`: replace every non-overlapping
occurrence, scanning left to right.  (The source never replaces an
empty pattern, so that Python corner case is treated as a no-op.) -/
def pyReplace (s pat rep : String) : String :=
  ⟨replaceCharsAux pat.data rep.data s.data.length s.data⟩

/-- Python `s.lower()` (ASCII; the pipeline's vocabularies are ASCII). -/
def pyLower (s : String) : String :=
  ⟨s.data.map Char.toLower⟩

/-- Python `s.strip()`: drop leading and trailing whitespace. -/
def pyStrip (s : String) : String :=
  ⟨((s.data.dropWhile Char.isWhitespace).reverse.dropWhile Char.isWhitespace).reverse⟩

/-- Split a character list at every character satisfying `p`, keeping
empty pieces (Python `s.split(sep)` behaviour with `p := (· = sep)`). -/
def splitChars (p : Char → Bool) : List Char → List (List Char)
  | [] => [[]]
  | c :: rest =>
    let r := splitChars p rest
    if p c then [] :: r
    else
      match r with
      | h :: t => (c :: h) :: t
      | [] => [[c]]

/-- Python `s.split(sep)` with a single-character separator. -/
def pySplitChar (s : String) (sep : Char) : List String :=
  (splitChars (fun c => c = sep) s.data).map (fun l => ⟨l⟩)

/-- Python `s.split()`: split on whitespace runs, dropping empty pieces. -/
def pySplitWs (s : String) : List String :=
  ((splitChars Char.isWhitespace s.data).map (fun l => (⟨l⟩ : String))).filter (fun t => t ≠ "")

/-- Value of a list of decimal digits. -/
def digitsToNat (l : List Char) : Nat :=
  l.foldl (fun a c => a * 10 + (c.toNat - 48)) 0

/-- Python `int(s)`: optional sign, then decimal digits (underscore
grouping, which no pipeline input uses, is not modelled). -/
def parseInt (s : String) : Option Int :=
  let t := (pyStrip s).data
  let (sgn, ds) : Int × List Char :=
    match t with
    | '-' :: r => (-1, r)
    | '+' :: r => (1, r)
    | r => (1, r)
  if ds ≠ [] && ds.all Char.isDigit then some (sgn * Int.ofNat (digitsToNat ds))
  else Option.none

/-- Python `float(s)` on the decimal forms the pipeline can produce:
optional sign, digits with an optional fractional part (either side of
the dot may be empty but not both), optional exponent.  The result is
the exact rational value of the decimal literal.  The special strings
`inf`/`nan`, which no pipeline input produces, are not modelled and
fail the parse. -/
def parseFloat (s : String) : Option ℚ :=
  let t := (pyStrip s).data
  let (sgn, t1) : Int × List Char :=
    match t with
    | '-' :: r => (-1, r)
    | '+' :: r => (1, r)
    | r => (1, r)
  let (ip, r1) := t1.span Char.isDigit
  let (fp, r2) : Option (List Char) × List Char :=
    match r1 with
    | '.' :: r => (some (r.takeWhile Char.isDigit), r.dropWhile Char.isDigit)
    | r => (Option.none, r)
  if ip = [] && (fp = Option.none || fp = some []) then Option.none
  else
    let fdigits := fp.getD []
    let m : Int := sgn * Int.ofNat (digitsToNat (ip ++ fdigits))
    let den : Nat := 10 ^ fdigits.length
    match r2 with
    | [] => some (mkRat m den)
    | c :: r =>
      if c = 'e' || c = 'E' then
        let (eneg, r') : Bool × List Char :=
          match r with
          | '-' :: rr => (true, rr)
          | '+' :: rr => (false, rr)
          | rr => (false, rr)
        let (ed, rest) := r'.span Char.isDigit
        if ed = [] || rest ≠ [] then Option.none
        else
          let k := digitsToNat ed
          if eneg then some (mkRat m (den * 10 ^ k))
          else some (mkRat (m * Int.ofNat (10 ^ k)) den)
      else Option.none

/-- The stray currency byte `'\x80'` stripped by the money parsers. -/
def euroArtifact : String :=
  String.singleton (Char.ofNat 0x80)

/-- `clean_price`: strip `"/mese"`, the currency artifact and the
thousands dots, then `float()`; on `ValueError` return `None`, but the
warning branch first formats `row['prezzo']` — a label the renamed
frame no longer has, hence a `KeyError`. -/
def clean_price (row : Row) (warning : Bool) : Except String PyVal :=
  match rowGetItem row "price" with
  | .error e => .error e
  | .ok price =>
    match price with
    | .str s0 =>
      let s := pyStrip (pyReplace (pyReplace (pyReplace s0 "/mese" "") euroArtifact "") "." "")
      match parseFloat s with
      | some q => .ok (.float q)
      | Option.none =>
        if warning then
          match rowGetItem row "prezzo" with
          | .error e => .error e
          | .ok _ => .ok PyVal.none
        else .ok PyVal.none
    | v => .ok v

/-- The `clean_spese_condominio` "no fee" vocabulary, verbatim. -/
def noFeeVocab : List String :=
  ["n.d.", "nessuna", "nessun", "nessuno", "non indicato",
   "Nessuna spesa condominiale", "nessuna spesa condominiale",
   "nessun dato", "0", "zero", "null", "nulla", "nil", "-"]

/-- `clean_spese_condominio`: strip the currency artifact and the dots,
test the lowercased result against the "no fee" vocabulary (yielding
`0.0`), else `float()`; `ValueError` yields `None`, with the warning
branch formatting the stale label `row['spese condominio']`. -/
def clean_spese_condominio (row : Row) (warning : Bool) : Except String PyVal :=
  match rowGetItem row "condo_fees" with
  | .error e => .error e
  | .ok spese =>
    match spese with
    | .str s0 =>
      let s := pyStrip (pyReplace (pyReplace s0 euroArtifact "") "." "")
      if noFeeVocab.contains (pyLower s) then .ok (.float 0)
      else
        match parseFloat s with
        | some q => .ok (.float q)
        | Option.none =>
          if warning then
            match rowGetItem row "spese condominio" with
            | .error e => .error e
            | .ok _ => .ok PyVal.none
          else .ok PyVal.none
    | v => .ok v

/-- `clean_mq`: strip the `m²` unit suffix, then `float()`; the warning
branch formats the stale label `row['m2']`. -/
def clean_mq (row : Row) (warning : Bool) : Except String PyVal :=
  match rowGetItem row "square_meters" with
  | .error e => .error e
  | .ok mq =>
    match mq with
    | .str s0 =>
      let s := pyStrip (pyReplace s0 "m²" "")
      match parseFloat s with
      | some q => .ok (.float q)
      | Option.none =>
        if warning then
          match rowGetItem row "m2" with
          | .error e => .error e
          | .ok _ => .ok PyVal.none
        else .ok PyVal.none
    | v => .ok v

/-- Output of `clean_rooms`: the parsed room count and the `5+`
lower-bound flag (both may be Python `None` on a parse failure). -/
structure RoomsOut where
  rooms : PyVal
  more_than_5_rooms : PyVal
deriving DecidableEq

/-- `clean_rooms`: `"5+"` caps to 5 with the flag set, otherwise
`int()`; `ValueError` yields `(None, None)`, with the warning branch
formatting the stale label `row['stanze']`. -/
def clean_rooms (row : Row) (warning : Bool) : Except String RoomsOut :=
  match rowGetItem row "rooms" with
  | .error e => .error e
  | .ok stanze =>
    match stanze with
    | .str s0 =>
      let s := pyStrip s0
      if s = "5+" then .ok ⟨.int 5, .bool true⟩
      else
        match parseInt s with
        | some n => .ok ⟨.int n, .bool false⟩
        | Option.none =>
          if warning then
            match rowGetItem row "stanze" with
            | .error e => .error e
            | .ok _ => .ok ⟨PyVal.none, PyVal.none⟩
          else .ok ⟨PyVal.none, PyVal.none⟩
    | v => .ok ⟨v, .bool false⟩

/-- Output columns of `clean_floor`. -/
structure FloorOut where
  floor : Option Int
  lift : Bool
  disabled_access : Bool
  raised_floor : Bool
  multi_floor : Bool
  total_floors_building : PyVal
  last_floor : Bool
deriving DecidableEq

/-- Python `floor_value >= totale_piani_edificio` for an int floor and
a pandas cell: defined for int, float and bool cells (`bool` is an int
subtype in Python); a `None` cell never reaches the comparison.  The
float case compares exactly via cross-multiplication. -/
def pyGeIntVal (f : Int) : PyVal → Bool
  | .int n => decide (f ≥ n)
  | .float q => decide (q.num ≤ f * (q.den : Int))
  | .bool b => decide (f ≥ (if b then 1 else 0))
  | _ => false

/-- Lines 88-94 of the source: when the `'totale piani edificio'` cell
is a string, parse `int(cell.split()[0])`; `[]`-indexing an empty
split raises `IndexError`, `ValueError` degrades to `None` after the
warning branch formats the (stale, post-rename) label
`row['totale piani edificio']`. -/
def floorTotale (row : Row) (warning : Bool) : Except String PyVal :=
  let tpe0 := rowGetD row "totale piani edificio" PyVal.none
  match tpe0 with
  | .str s =>
    match pySplitWs s with
    | [] => .error "IndexError: list index out of range"
    | t :: _ =>
      match parseInt t with
      | some n => .ok (.int n)
      | Option.none =>
        if warning then
          match rowGetItem row "totale piani edificio" with
          | .error e => .error e
          | .ok _ => .ok PyVal.none
        else .ok PyVal.none
  | v => .ok v

/-- `clean_floor`: lowercase and trim the floor text, strip the
elevator and disabled-access markers into flags, then classify:
basement → -1, ground → 0, raised ground → 0 with its flag, an
ordinal-suffixed token → its integer (first `°`-marked token after
commas become spaces; `ValueError` degrades to `None` after the
warning branch reads the stale label `row['piano']`), else mark
multi-floor when more than two characters remain; the top-floor flag
is set when an ordinal floor meets `floor >= total floors`. -/
def clean_floor (row : Row) (warning : Bool) : Except String FloorOut :=
  match rowGetItem row "floor" with
  | .error e => .error e
  | .ok piano0 =>
    match floorTotale row warning with
    | .error e => .error e
    | .ok tpe =>
      match piano0 with
      | .str s0 =>
        let p1 := pyStrip (pyLower s0)
        let asc := strContains p1 "ascensore"
        let p2 := if asc then pyStrip (pyReplace p1 "ascensore" "") else p1
        let dis := strContains p2 "accesso disabili"
        let p3 := if dis then pyStrip (pyReplace p2 "accesso disabili" "") else p2
        if strContains p3 "seminterrato" then
          .ok ⟨some (-1), asc, dis, false, false, tpe, false⟩
        else if strContains p3 "piano terra" || strContains p3 "terra" then
          .ok ⟨some 0, asc, dis, false, false, tpe, false⟩
        else if strContains p3 "piano rialzato" then
          .ok ⟨some 0, asc, dis, true, false, tpe, false⟩
        else if strContains p3 "°" then
          let parts := pySplitWs (pyReplace p3 "," " ")
          let fvStep : Except String (Option Int) :=
            match parts.find? (fun t => strContains t "°") with
            | some t =>
              match parseInt (pyReplace t "°" "") with
              | some n => .ok (some n)
              | Option.none =>
                if warning then
                  match rowGetItem row "piano" with
                  | .error e => .error e
                  | .ok _ => .ok Option.none
                else .ok Option.none
            | Option.none => .ok Option.none
          match fvStep with
          | .error e => .error e
          | .ok fval =>
            let ultimo : Bool :=
              match fval with
              | some f => if tpe = PyVal.none then false else pyGeIntVal f tpe
              | Option.none => false
            .ok ⟨fval, asc, dis, false, false, tpe, ultimo⟩
        else
          let multi := decide (p3.data.length > 2) && !(p3.data.get? 1 = some '°')
          .ok ⟨Option.none, asc, dis, false, multi, tpe, false⟩
      | _ => .ok ⟨Option.none, false, false, false, false, tpe, false⟩

/-- Output columns of `clean_contratto`. -/
structure ContrattoOut where
  rent : Bool
  free_rent : Bool
  rent_min_duration : Option Int
  rent_renewal_duration : Option Int
  controlled_rent : Bool
  short_term_rent : Bool
  student_rent : Bool
  buyout_rent : Bool
  income_property : Bool
deriving DecidableEq

/-- Attempt the regex `(\d+)\+(\d+)` at the head of the text: a
maximal digit run, a literal `+`, a second maximal digit run.  (A
shorter first run would leave a digit where the `+` must sit, so
greedy matching with backtracking coincides with the maximal runs.) -/
def matchNPlusMAt (l : List Char) : Option (List Char × List Char) :=
  let (d1, rest) := l.span Char.isDigit
  match d1, rest with
  | [], _ => Option.none
  | _, '+' :: rest2 =>
    let (d2, _) := rest2.span Char.isDigit
    if d2.isEmpty then Option.none else some (d1, d2)
  | _, _ => Option.none

/-- `re.search(r'(\d+)\+(\d+)', s)`: leftmost match, returning the two
captured digit groups. -/
def searchNPlusM : List Char → Option (List Char × List Char)
  | [] => Option.none
  | c :: cs =>
    match matchNPlusMAt (c :: cs) with
    | some r => some r
    | Option.none => searchNPlusM cs

/-- `clean_contratto`: lowercase the contract text, set one boolean
per keyword, then search for the `N+M` duration pattern; on a match
the two captured integers become the durations, otherwise both
durations default to `0`; a non-string cell leaves them `None`. -/
def clean_contratto (row : Row) (warning : Bool) : Except String ContrattoOut :=
  match rowGetItem row "contract" with
  | .error e => .error e
  | .ok contratto =>
    match contratto with
    | .str s0 =>
      let c := pyLower s0
      let (dmin, dren) : Option Int × Option Int :=
        match searchNPlusM c.data with
        | some (g1, g2) => (some (Int.ofNat (digitsToNat g1)), some (Int.ofNat (digitsToNat g2)))
        | Option.none => (some 0, some 0)
      .ok ⟨strContains c "affitto", strContains c "libero", dmin, dren,
           strContains c "concordato", strContains c "transitorio",
           strContains c "studenti", strContains c "riscatto",
           strContains c "immobile a reddito"⟩
    | _ => .ok ⟨false, false, Option.none, Option.none, false, false, false, false, false⟩

/-- Output columns of `clean_locali`. -/
structure LocaliOut where
  room_total : Int
  bedrooms : Int
  other_rooms : Int
  kitchen_type : String
  tennis_court : Bool
deriving DecidableEq

/-- `re.search(r'(\d+|\d+\+)', s)`: the first alternative `\d+` already
matches at every position where the second could, so the match is the
maximal digit run at the leftmost digit. -/
def searchFirstDigitRun : List Char → Option (List Char)
  | [] => Option.none
  | c :: cs =>
    if c.isDigit then some (((c :: cs).span Char.isDigit).1)
    else searchFirstDigitRun cs

/-- Attempt `(\d+) camere da letto, (\d+) altri` at the head of the
text (maximal digit runs; the literals start with a space, so greedy
matching coincides with the maximal runs). -/
def matchCamereAt (l : List Char) : Option (Nat × Nat) :=
  match l with
  | [] => Option.none
  | c :: _ =>
    if c.isDigit then
      let (d1, rest) := l.span Char.isDigit
      if hasPrefixList " camere da letto, ".data rest then
        let rest2 := rest.drop " camere da letto, ".data.length
        match rest2 with
        | c2 :: _ =>
          if c2.isDigit then
            let (d2, rest3) := rest2.span Char.isDigit
            if hasPrefixList " altri".data rest3 then some (digitsToNat d1, digitsToNat d2)
            else Option.none
          else Option.none
        | [] => Option.none
      else Option.none
    else Option.none

/-- `re.search(r'(\d+) camere da letto, (\d+) altri', s)`: leftmost
match of the bedroom/other-room breakdown. -/
def searchCamere : List Char → Option (Nat × Nat)
  | [] => Option.none
  | c :: cs =>
    match matchCamereAt (c :: cs) with
    | some r => some r
    | Option.none => searchCamere cs

/-- Character class `[a-z\s]` of the kitchen-descriptor capture
(Python `\s` also covers `\f`/`\v`, which no input contains). -/
def cucinaClass (c : Char) : Bool :=
  (decide ('a' ≤ c) && decide (c ≤ 'z')) || c.isWhitespace

/-- Attempt `cucina ([a-z\s]+)` at the head of the text. -/
def matchCucinaAt (l : List Char) : Option (List Char) :=
  if hasPrefixList "cucina ".data l then
    let rest := l.drop "cucina ".data.length
    let cap := rest.takeWhile cucinaClass
    if cap.isEmpty then Option.none else some cap
  else Option.none

/-- `re.search(r'cucina ([a-z\s]+)', s)`: leftmost match, returning
the greedy capture. -/
def searchCucina : List Char → Option (List Char)
  | [] => Option.none
  | c :: cs =>
    match matchCucinaAt (c :: cs) with
    | some r => some r
    | Option.none => searchCucina cs

/-- `clean_locali`: tennis-court marker by substring, leading count
from the first digit run (the source strips a `+` that the matched
group can never contain), bedroom/other breakdown from its dedicated
pattern, kitchen type from the stripped capture after `"cucina "`;
absent sub-patterns default to `0` / `""` / `false`. -/
def clean_locali (row : Row) (warning : Bool) : Except String LocaliOut :=
  match rowGetItem row "rooms_details" with
  | .error e => .error e
  | .ok locali =>
    match locali with
    | .str s =>
      let tennis := strContains s "campo da tennis"
      let totale : Int :=
        match searchFirstDigitRun s.data with
        | some d => Int.ofNat (digitsToNat d)
        | Option.none => 0
      let (camere, altri) : Int × Int :=
        match searchCamere s.data with
        | some (a, b) => (Int.ofNat a, Int.ofNat b)
        | Option.none => (0, 0)
      let cucina : String :=
        match searchCucina s.data with
        | some cap => pyStrip ⟨cap⟩
        | Option.none => ""
      .ok ⟨totale, camere, altri, cucina, tennis⟩
    | _ => .ok ⟨0, 0, 0, "", false⟩

/-- Output columns of `clean_bathrooms`. -/
structure BathroomsOut where
  bathrooms : PyVal
  more_than_3_bathrooms : Bool
deriving DecidableEq

/-- `clean_bathrooms`: `"3+"` caps to 3 with the flag set, otherwise
`int()`; `ValueError` yields `None` with the flag `false`, after the
warning branch formats the stale label `row['bagni']`. -/
def clean_bathrooms (row : Row) (warning : Bool) : Except String BathroomsOut :=
  match rowGetItem row "bathrooms" with
  | .error e => .error e
  | .ok bagni =>
    match bagni with
    | .str s0 =>
      let s := pyStrip s0
      if s = "3+" then .ok ⟨.int 3, true⟩
      else
        match parseInt s with
        | some n => .ok ⟨.int n, false⟩
        | Option.none =>
          if warning then
            match rowGetItem row "bagni" with
            | .error e => .error e
            | .ok _ => .ok ⟨PyVal.none, false⟩
          else .ok ⟨PyVal.none, false⟩
    | v => .ok ⟨v, false⟩

/-- Output columns of `parse_parking`. -/
structure ParkingOut where
  garage_box : Nat
  outdoor_parking : Nat
  common_parking : Nat
  private_box : Nat
deriving DecidableEq

/-- Fuel-driven core of `findAllCounts`; the fuel is the text length,
enough because each step consumes at least one character. -/
def findAllCountsAux (lit : List Char) : Nat → List Char → List Nat
  | 0, _ => []
  | _, [] => []
  | fuel + 1, c :: cs =>
    if c.isDigit then
      let (d, rest) := (c :: cs).span Char.isDigit
      if hasPrefixList lit rest then
        digitsToNat d :: findAllCountsAux lit fuel (rest.drop lit.length)
      else findAllCountsAux lit fuel cs
    else findAllCountsAux lit fuel cs

/-- `re.findall(r'(\d+) <literal>', s)`: every non-overlapping
occurrence, scanning left to right, returning the counts (the literal
starts with a space, so the greedy digit run is the maximal one). -/
def findAllCounts (lit : String) (s : String) : List Nat :=
  findAllCountsAux lit.data s.data.length s.data

/-- `parse_parking`: for each of the four fixed phrase templates, sum
the leading counts of all occurrences; a non-string cell yields zero
for every category. -/
def parse_parking (row : Row) : Except String ParkingOut :=
  match rowGetItem row "parking_spaces" with
  | .error e => .error e
  | .ok posti_auto =>
    match posti_auto with
    | .str s =>
      .ok ⟨(findAllCounts " in garage/box" s).sum,
           (findAllCounts " all'esterno" s).sum,
           (findAllCounts " in parcheggio/garage comune" s).sum,
           (findAllCounts " in box privato/box in garage" s).sum⟩
    | _ => .ok ⟨0, 0, 0, 0⟩

/-- Output columns of `parse_stato`. -/
structure StatoOut where
  stato_condition : String
  stato_renovation : Option String
deriving DecidableEq

/-- `parse_stato`: split on `/` and trim; two parts give condition and
renovation, one part gives condition only, anything else (including a
non-string cell) leaves the defaults `("Unknown", None)`. -/
def parse_stato (row : Row) : Except String StatoOut :=
  match rowGetItem row "condition" with
  | .error e => .error e
  | .ok stato =>
    match stato with
    | .str s =>
      let parts := (pySplitChar s '/').map pyStrip
      match parts with
      | [a, b] => .ok ⟨a, some b⟩
      | [a] => .ok ⟨a, Option.none⟩
      | _ => .ok ⟨"Unknown", Option.none⟩
    | _ => .ok ⟨"Unknown", Option.none⟩

/-- Output columns of `parse_housetype` (English keys of the source's
`property_types` dict, in order). -/
structure HousetypeOut where
  condominium : Bool
  penthouse : Bool
  single_family_villa : Bool
  semi_detached_villa : Bool
  multi_family_villa : Bool
  open_space : Bool
  attic : Bool
  loft : Bool
  building : Bool
  farmhouse : Bool
  terraced_house_single : Bool
  terraced_house_multi : Bool
  prestigious_class : Bool
  middle_class : Bool
  economical_class : Bool
  luxury_property : Bool
  full_ownership : Bool
  partial_ownership : Bool
  right_of_surface : Bool
  bare_ownership : Bool
  usufruct : Bool
  timeshare : Bool
deriving DecidableEq

/-- `parse_housetype`: read `property_type` (falling back to the
original `tipologia` label), lowercase, and set each English flag when
any of its Italian phrases occurs as a substring (`palazzo`/`edificio`
both map to `building`, both spellings of `multiproprietà` map to
`timeshare`). -/
def parse_housetype (row : Row) : HousetypeOut :=
  let housetype := rowGetD row "property_type" (rowGetD row "tipologia" PyVal.none)
  match housetype with
  | .str s =>
    let l := pyLower s
    ⟨strContains l "condominio",
     strContains l "attico",
     strContains l "villa unifamiliare",
     strContains l "villa bifamiliare",
     strContains l "villa plurifamiliare",
     strContains l "open space",
     strContains l "mansarda",
     strContains l "loft",
     strContains l "palazzo" || strContains l "edificio",
     strContains l "casale",
     strContains l "terratetto unifamiliare",
     strContains l "terratetto plurifamiliare",
     strContains l "classe signorile",
     strContains l "classe media",
     strContains l "classe economica",
     strContains l "immobile di lusso",
     strContains l "intera proprietà",
     strContains l "parziale proprietà",
     strContains l "diritto di superficie",
     strContains l "nuda proprietà",
     strContains l "usufrutto",
     strContains l "multiproprietà" || strContains l "multiproprieta"⟩
  | _ =>
    ⟨false, false, false, false, false, false, false, false, false, false, false,
     false, false, false, false, false, false, false, false, false, false, false⟩

/-- `clean_disponibilita`: a string cell maps to the boolean
`'libero' in text` (lowercased, trimmed); other cells pass through. -/
def clean_disponibilita (row : Row) (warning : Bool) : Except String PyVal :=
  match rowGetItem row "availability" with
  | .error e => .error e
  | .ok disponibilita =>
    match disponibilita with
    | .str s => .ok (.bool (strContains (pyStrip (pyLower s)) "libero"))
    | v => .ok v

/-- `clean_anno_di_costruzione`: `int()` of the trimmed text;
`ValueError` yields `None` after the warning branch formats
`row['anno_di_costruzione']`, a label that never exists (the raw
column is `'anno di costruzione'`, renamed to `'year_built'`). -/
def clean_anno_di_costruzione (row : Row) (warning : Bool) : Except String PyVal :=
  match rowGetItem row "year_built" with
  | .error e => .error e
  | .ok anno =>
    match anno with
    | .str s0 =>
      match parseInt (pyStrip s0) with
      | some n => .ok (.int n)
      | Option.none =>
        if warning then
          match rowGetItem row "anno_di_costruzione" with
          | .error e => .error e
          | .ok _ => .ok PyVal.none
        else .ok PyVal.none
    | v => .ok v

/-- Output columns of `clean_riscaldamento`. -/
structure HeatingOut where
  heating_autonomous : Bool
  heating_centralized : Bool
  heating_radiators : Bool
  heating_floor : Bool
  heating_air : Bool
  heating_stove : Bool
  heating_gas : Bool
  heating_methane : Bool
  heating_gpl : Bool
  heating_diesel : Bool
  heating_heat_pump : Bool
  heating_district_heating : Bool
  heating_photovoltaic : Bool
  heating_solar : Bool
  heating_electric : Bool
  heating_pellet : Bool
deriving DecidableEq

/-- `clean_riscaldamento`: one substring test per fuel/system keyword
over the lowercased text; the generic `gas` flag deliberately excludes
texts containing `gasolio`, and `elettrica`/`elettrico` both set the
electric flag. -/
def clean_riscaldamento (row : Row) (warning : Bool) : Except String HeatingOut :=
  match rowGetItem row "heating" with
  | .error e => .error e
  | .ok riscaldamento =>
    match riscaldamento with
    | .str s =>
      let l := pyLower s
      .ok ⟨strContains l "autonomo",
           strContains l "centralizzato",
           strContains l "radiatori",
           strContains l "pavimento",
           strContains l "aria",
           strContains l "stufa",
           strContains l "gas" && !strContains l "gasolio",
           strContains l "metano",
           strContains l "gpl",
           strContains l "gasolio",
           strContains l "pompa di calore",
           strContains l "teleriscaldamento",
           strContains l "fotovoltaico",
           strContains l "solare",
           strContains l "elettrica" || strContains l "elettrico",
           strContains l "pellet"⟩
    | _ =>
      .ok ⟨false, false, false, false, false, false, false, false,
           false, false, false, false, false, false, false, false⟩

/-- Output columns of `clean_air_conditioning`. -/
structure AirOut where
  air_conditioning_autonomous : Bool
  air_conditioning_centralized : Bool
  air_conditioning_prearranged : Bool
  air_conditioning_cold : Bool
  air_conditioning_hot : Bool
  air_conditioning_absent : Bool
deriving DecidableEq

/-- `clean_air_conditioning`: one substring test per marker over the
lowercased text. -/
def clean_air_conditioning (row : Row) (warning : Bool) : Except String AirOut :=
  match rowGetItem row "air_conditioning" with
  | .error e => .error e
  | .ok climatizzatore =>
    match climatizzatore with
    | .str s =>
      let l := pyLower s
      .ok ⟨strContains l "autonomo",
           strContains l "centralizzato",
           strContains l "predisposizione",
           strContains l "freddo",
           strContains l "caldo",
           strContains l "assente"⟩
    | _ => .ok ⟨false, false, false, false, false, false⟩

/-- Output columns of `clean_energy_efficiency` (the source computes a
numeric class from its `classe_mapping` dict but does not include it
in the returned record). -/
structure EnergyOut where
  energy_efficiency_class : Option Char
  energy_efficiency_consumption_kwh : Option ℚ
deriving DecidableEq

/-- `re.search(r'(\d+(?:[.,]\d+)?)', s)`: leftmost digit run with an
optional decimal-separator-plus-digits tail (the optional group is
taken greedily when it matches). -/
def searchNumToken : List Char → Option (List Char)
  | [] => Option.none
  | c :: cs =>
    if c.isDigit then
      let (d1, rest) := (c :: cs).span Char.isDigit
      match rest with
      | sep :: rest2 =>
        if sep = '.' || sep = ',' then
          let (d2, _) := rest2.span Char.isDigit
          if d2.isEmpty then some d1 else some (d1 ++ sep :: d2)
        else some d1
      | [] => some d1
    else searchNumToken cs

/-- `clean_energy_efficiency`: when the first character of the trimmed
text is alphabetic it becomes the (uppercased) class letter; the first
numeric token, with `,` normalized to `.`, becomes the consumption
value; either extraction degrades to `None` independently.  (The
`float()` of the matched token cannot fail; the source's dead
`ValueError` handler is therefore not represented.) -/
def clean_energy_efficiency (row : Row) (warning : Bool) : Except String EnergyOut :=
  match rowGetItem row "energy_efficiency" with
  | .error e => .error e
  | .ok efficienza =>
    match efficienza with
    | .str s0 =>
      let e := pyStrip s0
      let classe : Option Char :=
        match e.data with
        | c :: _ => if c.isAlpha then some c.toUpper else Option.none
        | [] => Option.none
      let consumo : Option ℚ :=
        match searchNumToken e.data with
        | some tok => parseFloat (pyReplace ⟨tok⟩ "," ".")
        | Option.none => Option.none
      .ok ⟨classe, consumo⟩
    | _ => .ok ⟨Option.none, Option.none⟩

/-- Output columns of `parse_additional_features` (the source's
`features` dict keys, in order). -/
structure FeaturesOut where
  terrace : Bool
  reception : Bool
  jacuzzi : Bool
  elevator : Bool
  south_facing : Bool
  tv_system : Bool
  concierge : Bool
  balconies : Bool
  tavern : Bool
  furnished_kitchen : Bool
  video_intercom : Bool
  garage_box : Bool
  swimming_pool : Bool
  cellar : Bool
  fireplace : Bool
  double_exposure : Bool
  furnished : Bool
  garden : Bool
  built_in_wardrobe : Bool
  ground_floor : Bool
  attic : Bool
  internal_exposure : Bool
  electric_gate : Bool
  external_exposure : Bool
  high_quality_windows : Bool
  disabled_access : Bool
  east_facing : Bool
  tennis_court : Bool
  alarm_system : Bool
  fiber_optic : Bool
  security_door : Bool
deriving DecidableEq

/-- Python `any(x in t for x in pats)`. -/
def anyContains (t : String) (pats : List String) : Bool :=
  pats.any (fun p => strContains t p)

/-- `parse_additional_features`: split the amenities text on commas,
trim and lowercase each piece, rejoin with single spaces, then test
each flag's synonym phrases for substring containment. -/
def parse_additional_features (row : Row) : Except String FeaturesOut :=
  match rowGetItem row "other_features" with
  | .error e => .error e
  | .ok caratteristiche =>
    match caratteristiche with
    | .str s =>
      let t := String.intercalate " " ((pySplitChar s ',').map (fun piece => pyLower (pyStrip piece)))
      .ok
        { terrace := strContains t "terrace"
          reception := strContains t "reception"
          jacuzzi := strContains t "jacuzzi"
          elevator := strContains t "elevator" || strContains t "con ascensore"
          south_facing := strContains t "south facing"
          tv_system := anyContains t ["impianto tv singolo", "impianto tv centralizzato", "impianto tv con parabola"]
          concierge := anyContains t ["portiere intera giornata", "portiere mezza giornata"]
          balconies := anyContains t ["balconi", "1 balcone", "2 balconi", "3 balconi", "4 balconi", "5 balconi", "6 balconi", "8 balconi", "18 balconi"]
          tavern := strContains t "tavern"
          furnished_kitchen := anyContains t ["solo cucina arredata", "parzialmente arredato"]
          video_intercom := strContains t "video intercom"
          garage_box := anyContains t ["box", "garage", "box/garage privato", "1 in box/garage privato"]
          swimming_pool := strContains t "swimming pool"
          cellar := strContains t "cellar"
          fireplace := strContains t "fireplace"
          double_exposure := strContains t "double exposure"
          furnished := strContains t "furnished"
          garden := anyContains t ["giardino privato", "giardino comune", "giardino privato e comune"]
          built_in_wardrobe := strContains t "built-in wardrobe"
          ground_floor := strContains t "ground floor"
          attic := strContains t "attic"
          internal_exposure := strContains t "internal exposure"
          electric_gate := strContains t "electric gate"
          external_exposure := strContains t "external exposure"
          high_quality_windows := anyContains t ["infissi", "doppio vetro", "triplo vetro"]
          disabled_access := strContains t "disabled access" || strContains t "con accesso disabili"
          east_facing := strContains t "east facing"
          tennis_court := strContains t "tennis court"
          alarm_system := strContains t "alarm system"
          fiber_optic := strContains t "fiber optic"
          security_door := strContains t "security door" }
    | _ =>
      .ok ⟨false, false, false, false, false, false, false, false, false, false, false,
           false, false, false, false, false, false, false, false, false, false, false,
           false, false, false, false, false, false, false, false, false⟩

/-- Output columns of `parse_description` (keyword indicators, as the
source's 0/1 integers). -/
structure DescriptionFeatures where
  subway : Nat
  station : Nat
  university : Nat
  hospital : Nat
  park : Nat
  shower : Nat
  bathtub : Nat
  bright : Nat
  quiet : Nat
  wardrobe : Nat
  market : Nat
deriving DecidableEq

/-- Python truthiness of a string literal (non-empty is truthy). -/
def pyTruthy (s : String) : Bool :=
  !s.data.isEmpty

/-- `parse_description`: lowercase the description and test keywords.
The source's multi-synonym tests are written
`if "word" or "other" in description:` — a Python `or` between a
truthy string literal and the containment test of the last
alternative — transcribed here verbatim as
`pyTruthy "word" || strContains d "other"`. -/
def parse_description (row : Row) : Except String DescriptionFeatures :=
  match rowGetItem row "description" with
  | .error e => .error e
  | .ok description =>
    match description with
    | .str s =>
      let d := pyLower s
      .ok
        { subway := if pyTruthy "metro" || strContains d "metropolitana" then 1 else 0
          station := if pyTruthy "stazione" || strContains d "treno" then 1 else 0
          university := if pyTruthy "universita" || strContains d "università" then 1 else 0
          hospital := if strContains d "ospedale" then 1 else 0
          park := if strContains d "parco" then 1 else 0
          shower := if strContains d "doccia" then 1 else 0
          bathtub := if strContains d "vasca" then 1 else 0
          bright := if pyTruthy "luminoso" || strContains d "luminosa" then 1 else 0
          quiet := if pyTruthy "silenzioso" || strContains d "silenziosa" then 1 else 0
          wardrobe := if strContains d "guardaroba" then 1 else 0
          market := if pyTruthy "mercato" || pyTruthy "supermercato" || pyTruthy "super market" || strContains d "supermarket" then 1 else 0 }
    | _ => .ok ⟨0, 0, 0, 0, 0, 0, 0, 0, 0, 0, 0⟩

/-- `clean_deposit`: strip the currency artifact and the thousands
dots, then `float()`; `ValueError` yields `None` (this warning branch
formats `row['deposit']`, a label that does exist). -/
def clean_deposit (row : Row) (warning : Bool) : Except String PyVal :=
  match rowGetItem row "deposit" with
  | .error e => .error e
  | .ok deposit =>
    match deposit with
    | .str s0 =>
      let s := pyStrip (pyReplace (pyReplace s0 euroArtifact "") "." "")
      match parseFloat s with
      | some q => .ok (.float q)
      | Option.none =>
        if warning then
          match rowGetItem row "deposit" with
          | .error e => .error e
          | .ok _ => .ok PyVal.none
        else .ok PyVal.none
    | v => .ok v

/-- One row of the external neighborhood-to-municipality reference
table (`quartieri_mapping_with_municipio.csv`), whose contents are
data, not source; the join is verified for an arbitrary table. -/
structure MunicipioEntry where
  Quartiere : String
  Municipio : PyVal
  InsideGRA : PyVal
  Zone : PyVal
deriving DecidableEq

/-- The three fields the municipality join produces on a match. -/
structure MunicipioOut where
  municipality : PyVal
  InsideGRA : PyVal
  zone : PyVal
deriving DecidableEq

/-- `add_municipio`: lowercase and trim the neighborhood, look it up
by exact match against the lowercased, trimmed reference column; on a
match return the three joined fields; on no match, or a non-string
cell, the source falls through to a bare `return None` — modelled as
`Option.none` — rather than returning its `feats` record of three
`None` fields. -/
def add_municipio (municipio_df : List MunicipioEntry) (row : Row) : Except String (Option MunicipioOut) :=
  match rowGetItem row "neighborhood" with
  | .error e => .error e
  | .ok quartiere =>
    match quartiere with
    | .str s =>
      let q := pyStrip (pyLower s)
      match municipio_df.find? (fun entry => pyStrip (pyLower entry.Quartiere) = q) with
      | some entry => .ok (some ⟨entry.Municipio, entry.InsideGRA, entry.Zone⟩)
      | Option.none => .ok Option.none
    | _ => .ok Option.none

/-- `main`'s `column_rename_map`, verbatim. -/
def column_rename_map : List (String × String) :=
  [("prezzo", "price"),
   ("spese condominio", "condo_fees"),
   ("m2", "square_meters"),
   ("stanze", "rooms"),
   ("piano", "floor"),
   ("totale piani edificio", "total_floors"),
   ("contratto", "contract"),
   ("locali", "rooms_details"),
   ("bagni", "bathrooms"),
   ("Posti Auto", "parking_spaces"),
   ("stato", "condition"),
   ("tipologia", "property_type"),
   ("disponibilità", "availability"),
   ("anno di costruzione", "year_built"),
   ("riscaldamento", "heating"),
   ("Climatizzatore", "air_conditioning"),
   ("Efficienza energetica", "energy_efficiency"),
   ("altre caratteristiche", "other_features"),
   ("cauzione", "deposit"),
   ("quartiere", "neighborhood"),
   ("description", "description")]

/-- Rename one column label as `DataFrame.rename` does: map it when it
appears in `column_rename_map`, keep it otherwise. -/
def renameKey (k : String) : String :=
  match column_rename_map.find? (fun p => p.1 = k) with
  | some p => p.2
  | Option.none => k

/-- Rename every label of a row (`data.rename(columns=...)`). -/
def renameRow (r : Row) : Row :=
  (r : List (String × PyVal)).map (fun kv => (renameKey kv.1, kv.2))

/-- The `bathrooms / room_total` column division of `main`.  pandas
computes it as IEEE float division after coercing `None` to NaN; here
a NaN numerator and the division-by-zero infinities/NaN — which no
claim inspects — are both abstracted to a missing value, and a finite
quotient is the exact rational. -/
def seriesDiv (b : PyVal) (rt : Int) : Option ℚ :=
  match b with
  | .int n => if rt = 0 then Option.none else some (Rat.divInt n rt)
  | .float q => if rt = 0 then Option.none else some (Rat.divInt q.num ((q.den : Int) * rt))
  | _ => Option.none

/-- One row of `main`'s `cleaned_data` frame before the one-hot
columns are appended: the outputs of every normalizer, plus the
derived per-row columns `main` computes itself. -/
structure CleanedRow where
  price : PyVal
  condo_fees : PyVal
  m2 : PyVal
  roomsOut : RoomsOut
  floorOut : FloorOut
  contractOut : ContrattoOut
  localiOut : LocaliOut
  bathroomsOut : BathroomsOut
  bathrooms_per_room : Option ℚ
  parkingOut : ParkingOut
  has_garage_box : Bool
  has_outdoor_parking : Bool
  has_common_parking : Bool
  has_private_box : Bool
  statoOut : StatoOut
  housetypeOut : HousetypeOut
  is_available : PyVal
  construction_year : PyVal
  heatingOut : HeatingOut
  airOut : AirOut
  energyOut : EnergyOut
  featuresOut : FeaturesOut
  descriptionOut : DescriptionFeatures
  deposit : PyVal
  municipioOut : Option MunicipioOut
deriving DecidableEq

/-- The per-row work of `main`: apply every normalizer (each with the
default `warning=False`) to one renamed row and assemble the wide
row, in the source's order.  An uncaught exception from any normalizer
propagates. -/
def cleanRow (municipio_df : List MunicipioEntry) (row : Row) : Except String CleanedRow := do
  let price ← clean_price row false
  let condo_fees ← clean_spese_condominio row false
  let m2 ← clean_mq row false
  let roomsOut ← clean_rooms row false
  let floorOut ← clean_floor row false
  let contractOut ← clean_contratto row false
  let localiOut ← clean_locali row false
  let bathroomsOut ← clean_bathrooms row false
  let bathrooms_per_room := seriesDiv bathroomsOut.bathrooms localiOut.room_total
  let parkingOut ← parse_parking row
  let statoOut ← parse_stato row
  let housetypeOut := parse_housetype row
  let is_available ← clean_disponibilita row false
  let construction_year ← clean_anno_di_costruzione row false
  let heatingOut ← clean_riscaldamento row false
  let airOut ← clean_air_conditioning row false
  let energyOut ← clean_energy_efficiency row false
  let featuresOut ← parse_additional_features row
  let descriptionOut ← parse_description row
  let deposit ← clean_deposit row false
  let municipioOut ← add_municipio municipio_df row
  return { price := price
           condo_fees := condo_fees
           m2 := m2
           roomsOut := roomsOut
           floorOut := floorOut
           contractOut := contractOut
           localiOut := localiOut
           bathroomsOut := bathroomsOut
           bathrooms_per_room := bathrooms_per_room
           parkingOut := parkingOut
           has_garage_box := decide (parkingOut.garage_box > 0)
           has_outdoor_parking := decide (parkingOut.outdoor_parking > 0)
           has_common_parking := decide (parkingOut.common_parking > 0)
           has_private_box := decide (parkingOut.private_box > 0)
           statoOut := statoOut
           housetypeOut := housetypeOut
           is_available := is_available
           construction_year := construction_year
           heatingOut := heatingOut
           airOut := airOut
           energyOut := energyOut
           featuresOut := featuresOut
           descriptionOut := descriptionOut
           deposit := deposit
           municipioOut := municipioOut }

/-- `DataFrame.apply(f, axis=1)`: apply `f` to each row in order,
producing one output per row; the first uncaught exception aborts the
whole pipeline. -/
def applyRows {α : Type} (f : Row → Except String α) : List Row → Except String (List α)
  | [] => .ok []
  | r :: rs =>
    match f r, applyRows f rs with
    | .ok a, .ok as => .ok (a :: as)
    | .error e, _ => .error e
    | .ok _, .error e => .error e

/-- The distinct non-null values of the `stato_condition` column, the
vocabulary of `pd.get_dummies(cleaned_data['stato_condition'], ...)`
(`get_dummies` sorts its columns; column order is irrelevant to the
per-row sums verified here). -/
def condVocabOf (stati : List StatoOut) : List String :=
  (stati.map (fun o => o.stato_condition)).dedup

/-- The distinct non-null values of the `stato_renovation` column:
`get_dummies` drops NaN, so only the `some` values contribute. -/
def renVocabOf (stati : List StatoOut) : List String :=
  ((stati.map (fun o => o.stato_renovation)).filterMap id).dedup

/-- One row of the `stato_condition` one-hot block: the 0/1 indicator
of each vocabulary value. -/
def condDummyRow (vocab : List String) (c : String) : List Nat :=
  vocab.map (fun u => if c = u then 1 else 0)

/-- One row of the `stato_renovation` one-hot block: a null value
matches no vocabulary column. -/
def renDummyRow (vocab : List String) (r : Option String) : List Nat :=
  vocab.map (fun u => if r = some u then 1 else 0)

/-- One row of `main`'s final `cleaned_data`: the wide row plus its
two one-hot blocks. -/
structure FinalRow where
  base : CleanedRow
  stato_condition_dummies : List Nat
  stato_renovation_dummies : List Nat
deriving DecidableEq

/-- `main`, from the renamed frame to the rows written out: apply the
per-row normalizers to every row, then append the two one-hot blocks
computed from the whole `stato` column.  No step between assembly and
`to_csv` drops a row. -/
def mainPipeline (municipio_df : List MunicipioEntry) (raw : List Row) : Except String (List FinalRow) :=
  let rows := raw.map renameRow
  match applyRows (cleanRow municipio_df) rows with
  | .error e => .error e
  | .ok cleaned =>
    let condVocab := condVocabOf (cleaned.map (fun c => c.statoOut))
    let renVocab := renVocabOf (cleaned.map (fun c => c.statoOut))
    .ok (cleaned.map (fun c =>
      { base := c
        stato_condition_dummies := condDummyRow condVocab c.statoOut.stato_condition
        stato_renovation_dummies := renDummyRow renVocab c.statoOut.stato_renovation }))

/-- A raw input row (original Italian labels) whose price and area
both fail to normalize: `float("abc")` and `float("xyz")` raise
`ValueError`, so both columns become null. -/
def c1row : Row :=
  [("prezzo", PyVal.str "abc"),
   ("spese condominio", PyVal.none),
   ("m2", PyVal.str "xyz"),
   ("stanze", PyVal.none),
   ("piano", PyVal.none),
   ("totale piani edificio", PyVal.none),
   ("contratto", PyVal.none),
   ("locali", PyVal.str "3 locali"),
   ("bagni", PyVal.none),
   ("Posti Auto", PyVal.none),
   ("stato", PyVal.none),
   ("tipologia", PyVal.none),
   ("disponibilità", PyVal.none),
   ("anno di costruzione", PyVal.none),
   ("riscaldamento", PyVal.none),
   ("Climatizzatore", PyVal.none),
   ("Efficienza energetica", PyVal.none),
   ("altre caratteristiche", PyVal.none),
   ("cauzione", PyVal.none),
   ("quartiere", PyVal.none),
   ("description", PyVal.none)]

/-- `apply(axis=1)` produces exactly one output per input row whenever
it succeeds. -/
theorem applyRows_length {α : Type} {f : Row → Except String α} :
    ∀ {rs : List Row} {out : List α}, applyRows f rs = .ok out → out.length = rs.length := by
  intro rs
  induction rs with
  | nil =>
    intro out h
    simp only [applyRows, Except.ok.injEq] at h
    subst h
    rfl
  | cons r rs ih =>
    intro out h
    simp only [applyRows] at h
    cases hf : f r with
    | error e => rw [hf] at h; simp at h
    | ok a =>
      cases ha : applyRows f rs with
      | error e => rw [hf, ha] at h; simp at h
      | ok as =>
        rw [hf, ha] at h
        simp only [Except.ok.injEq] at h
        subst h
        simp [ih ha]

/-- Every entry of `column_rename_map` maps the old label
`'totale piani edificio'` away, and no entry maps anything onto it. -/
theorem renameKey_ne_totale (k : String) : renameKey k ≠ "totale piani edificio" := by
  unfold renameKey
  cases h : column_rename_map.find? (fun p => p.1 = k) with
  | none =>
    have hmem : ("totale piani edificio", "total_floors") ∈ column_rename_map := by decide
    have hne := List.find?_eq_none.mp h _ hmem
    simp only [decide_eq_true_eq] at hne
    intro hk
    dsimp only at hk
    exact hne hk.symm
  | some p =>
    have hmem : p ∈ column_rename_map := List.mem_of_find?_eq_some h
    have hall : ∀ q ∈ column_rename_map, q.2 ≠ "totale piani edificio" := by decide
    exact hall p hmem

/-- After the column renamer, no row has the label
`'totale piani edificio'` any more. -/
theorem renameRow_totale_none (r : Row) :
    rowGet? (renameRow r) "totale piani edificio" = Option.none := by
  unfold Row at r
  induction r with
  | nil => rfl
  | cons kv r ih =>
    show rowGet? (renameRow (kv :: r)) "totale piani edificio" = Option.none
    unfold rowGet? renameRow at ih ⊢
    simp only [List.map_cons, List.find?_cons, decide_eq_false (renameKey_ne_totale kv.1)]
    exact ih

/-- On a renamed row, the string-branch of the total-floors lookup is
dead: the `.get` default `None` is returned unchanged. -/
theorem floorTotale_renamed (raw : Row) (w : Bool) :
    floorTotale (renameRow raw) w = .ok PyVal.none := by
  unfold floorTotale rowGetD
  rw [renameRow_totale_none raw]
  rfl

/-- Sum of the 0/1 indicator row of a value that is not in the
vocabulary. -/
theorem indicator_sum_of_not_mem {α : Type} [DecidableEq α] {a : α} :
    ∀ {l : List α}, a ∉ l → (l.map (fun u => if a = u then (1 : Nat) else 0)).sum = 0 := by
  intro l
  induction l with
  | nil => intro _; rfl
  | cons x xs ih =>
    intro h
    have hax : a ≠ x := fun he => h (he ▸ List.mem_cons_self x xs)
    have hxs : a ∉ xs := fun hm => h (List.mem_cons_of_mem x hm)
    simp [hax, ih hxs]

/-- Sum of the 0/1 indicator row of a value that occurs once in a
duplicate-free vocabulary. -/
theorem indicator_sum_of_mem {α : Type} [DecidableEq α] {a : α} :
    ∀ {l : List α}, l.Nodup → a ∈ l → (l.map (fun u => if a = u then (1 : Nat) else 0)).sum = 1 := by
  intro l
  induction l with
  | nil => intro _ h; simp at h
  | cons x xs ih =>
    intro hnd hmem
    rw [List.nodup_cons] at hnd
    rcases List.mem_cons.mp hmem with h | h
    · subst h
      simp [indicator_sum_of_not_mem hnd.1]
    · have hax : a ≠ x := fun he => hnd.1 (he ▸ h)
      simp [hax, ih hnd.2 h]

/-- Claim C6: for every row processed by the assembled pipeline — the
floor normalizer only ever sees rows that went through the column
renamer, which maps `'totale piani edificio'` to `'total_floors'` —
the normalizer's `.get` of the old label `'totale piani edificio'`
yields its `None` default, so the `total_floors_building` output is
always null and `last_floor` is always `false`, regardless of the raw
total-floors value. -/
theorem c6_total_floors_always_null (raw : Row) (w : Bool) (out : FloorOut)
    (h : clean_floor (renameRow raw) w = .ok out) :
    out.total_floors_building = PyVal.none ∧ out.last_floor = false := by
  unfold clean_floor at h
  rw [floorTotale_renamed raw w] at h
  cases hpi : rowGetItem (renameRow raw) "floor" with
  | error e => rw [hpi] at h; exact absurd h (by simp)
  | ok piano0 =>
    rw [hpi] at h
    dsimp only at h
    cases piano0 <;> dsimp only at h
    case str s0 =>
      repeat' split at h
      all_goals
        first
        | (simp only [Except.ok.injEq] at h; subst h; exact ⟨rfl, rfl⟩)
        | exact Except.noConfusion h
    all_goals
      simp only [Except.ok.injEq] at h
      subst h
      exact ⟨rfl, rfl⟩

/-- Witness for C6: a raw row carrying the non-null total-floors text
`"6"` still yields a null `total_floors_building` and a `false`
`last_floor` after renaming. -/
theorem c6_total_floors_always_null_witness :
    (clean_floor (renameRow [("piano", PyVal.str "2°"), ("totale piani edificio", PyVal.str "6")]) false).map
      (fun o => (o.total_floors_building, o.last_floor)) = .ok (PyVal.none, false) := by
  have hsome :
      (clean_floor (renameRow [("piano", PyVal.str "2°"), ("totale piani edificio", PyVal.str "6")]) false).toOption.isSome
        = true := by decide
  cases h : clean_floor (renameRow [("piano", PyVal.str "2°"), ("totale piani edificio", PyVal.str "6")]) false with
  | error e => rw [h] at hsome; simp [Except.toOption] at hsome
  | ok out =>
    have hc := c6_total_floors_always_null _ _ _ h
    simp [Except.map, hc.1, hc.2]

/-- Claim C10: the floor parser maps `"3° ascensore"` with
total-floors 5 to floor 3, elevator flag `true`, top-floor flag
`false`; maps `"piano rialzato"` to floor 0 with the raised-floor flag
`true`; and detects/strips the elevator and disabled-access markers as
independent flags before classification (shown co-occurring). -/
theorem c10_floor_examples :
    clean_floor [("floor", PyVal.str "3° ascensore"), ("totale piani edificio", PyVal.int 5)] false =
      .ok ⟨some 3, true, false, false, false, .int 5, false⟩ ∧
    clean_floor [("floor", PyVal.str "piano rialzato")] false =
      .ok ⟨some 0, false, false, true, false, PyVal.none, false⟩ ∧
    clean_floor [("floor", PyVal.str "4° ascensore accesso disabili"), ("totale piani edificio", PyVal.int 8)] false =
      .ok ⟨some 4, true, true, false, false, .int 8, false⟩ := by decide

/-- Claim C7: on a present string contract field, a missing
`N+M` pattern leaves both durations `0` (not null); a present pattern
yields the two captured integers; and `"affitto"` in the text sets the
rent flag. -/
theorem c7_contract_durations (row : Row) (s : String) (out : ContrattoOut)
    (hget : rowGetItem row "contract" = .ok (.str s))
    (hrun : clean_contratto row false = .ok out) :
    (searchNPlusM (pyLower s).data = Option.none →
       out.rent_min_duration = some 0 ∧ out.rent_renewal_duration = some 0) ∧
    (∀ g1 g2, searchNPlusM (pyLower s).data = some (g1, g2) →
       out.rent_min_duration = some (Int.ofNat (digitsToNat g1)) ∧
       out.rent_renewal_duration = some (Int.ofNat (digitsToNat g2))) ∧
    (strContains (pyLower s) "affitto" = true → out.rent = true) := by
  unfold clean_contratto at hrun
  rw [hget] at hrun
  dsimp only at hrun
  cases hs : searchNPlusM (pyLower s).data with
  | none =>
    rw [hs] at hrun
    simp only [Except.ok.injEq] at hrun
    subst hrun
    exact ⟨fun _ => ⟨rfl, rfl⟩, fun g1 g2 hg => Option.noConfusion hg, fun ha => by simpa using ha⟩
  | some g =>
    rw [hs] at hrun
    simp only [Except.ok.injEq] at hrun
    subst hrun
    refine ⟨fun hn => Option.noConfusion hn, fun g1 g2 hg => ?_, fun ha => by simpa using ha⟩
    simp only [Option.some.injEq] at hg
    subst hg
    exact ⟨rfl, rfl⟩

/-- Claim C1 (amended): `main` applies no mandatory-field filter at
all — every input row yields exactly one output row, whatever its
normalized price and area, so the retained-row count always equals
the input row count. -/
theorem c1_no_row_filter (municipio_df : List MunicipioEntry) (raw : List Row)
    (out : List FinalRow) (h : mainPipeline municipio_df raw = .ok out) :
    out.length = raw.length := by
  unfold mainPipeline at h
  dsimp only at h
  cases happ : applyRows (cleanRow municipio_df) (raw.map renameRow) with
  | error e => rw [happ] at h; exact Except.noConfusion h
  | ok cleaned =>
    rw [happ] at h
    simp only [Except.ok.injEq] at h
    subst h
    simp [applyRows_length happ]

/-- Witness for C1: the pipeline on the single row `c1row` succeeds
and keeps exactly one row. -/
theorem c1_no_row_filter_witness :
    (mainPipeline [] [c1row]).map (fun out => out.length) = .ok 1 := by
  have hsome : (mainPipeline [] [c1row]).toOption.isSome = true := by decide
  cases h : mainPipeline [] [c1row] with
  | error e => rw [h] at hsome; simp [Except.toOption] at hsome
  | ok out =>
    have hl := c1_no_row_filter [] [c1row] out h
    simp [Except.map, hl]

/-- Counterexample to C1 as stated: `c1row` normalizes to a null
price and a null area, yet the pipeline's output still contains its
row — the claimed "excluded iff price or area is null" filter does
not exist. -/
theorem c1_null_mandatory_row_retained :
    (mainPipeline [] [c1row]).map (fun out => out.map (fun fr => (fr.base.price, fr.base.m2))) =
      .ok [(PyVal.none, PyVal.none)] := by decide

/-- Claim C2: `clean_price` is claimed never to raise for either
warning setting; in fact, with `warning=True`, an unparseable price
makes the warning f-string evaluate `row['prezzo']` — a label the
renamed frame no longer has — and the resulting `KeyError`
propagates to the caller.  With the pipeline's `warning=False` the
same input degrades to null, and `clean_rooms` has the same stale
label (`'stanze'`) on its warning path. -/
theorem c2_warning_path_raises :
    clean_price [("price", PyVal.str "abc")] true = .error "KeyError: prezzo" ∧
    clean_price [("price", PyVal.str "abc")] false = .ok PyVal.none ∧
    clean_rooms [("rooms", PyVal.str "abc")] true = .error "KeyError: stanze" ∧
    clean_rooms [("rooms", PyVal.str "abc")] false = .ok ⟨PyVal.none, PyVal.none⟩ := by decide

/-- Claim C3: on a neighborhood with no reference-table match (here:
an empty table and a populated one), and on a non-string neighborhood,
`add_municipio` returns the bare Python `None` — an omitted record —
instead of its `feats` record of three null fields. -/
theorem c3_no_match_returns_bare_none :
    add_municipio [] [("neighborhood", PyVal.str "trastevere")] = .ok Option.none ∧
    add_municipio [⟨"Centro Storico", .int 1, .bool true, .str "Centro"⟩]
      [("neighborhood", PyVal.str "trastevere")] = .ok Option.none ∧
    add_municipio [⟨"Centro Storico", .int 1, .bool true, .str "Centro"⟩]
      [("neighborhood", PyVal.none)] = .ok Option.none ∧
    add_municipio [⟨"Centro Storico", .int 1, .bool true, .str "Centro"⟩]
      [("neighborhood", PyVal.str " centro storico ")] =
      .ok (some ⟨.int 1, .bool true, .str "Centro"⟩) := by decide

/-- Counterexample to C4 as stated: on the description `"x"`, which
contains neither `"metro"` nor `"metropolitana"`, the subway flag is
still `1` — so not even the last alternative of the synonym pair
gates the flag. -/
theorem c4_flag_set_without_any_synonym :
    parse_description [("description", PyVal.str "x")] = .ok ⟨1, 1, 1, 0, 0, 0, 0, 1, 1, 0, 1⟩ ∧
    strContains (pyLower "x") "metro" = false ∧
    strContains (pyLower "x") "metropolitana" = false := by decide

/-- Claim C4 (amended): in every multi-synonym keyword test the
truthy string literal short-circuits the `or`, so for every string
description the corresponding flags are unconditionally `1`; no
alternative of the synonym pair gates them at all. -/
theorem c4_multi_synonym_flags_always_one (row : Row) (s : String) (out : DescriptionFeatures)
    (hget : rowGetItem row "description" = .ok (.str s))
    (hrun : parse_description row = .ok out) :
    out.subway = 1 ∧ out.station = 1 ∧ out.university = 1 ∧
    out.bright = 1 ∧ out.quiet = 1 ∧ out.market = 1 := by
  unfold parse_description at hrun
  rw [hget] at hrun
  dsimp only at hrun
  simp only [Except.ok.injEq] at hrun
  subst hrun
  have h1 : pyTruthy "metro" = true := by decide
  have h2 : pyTruthy "stazione" = true := by decide
  have h3 : pyTruthy "universita" = true := by decide
  have h4 : pyTruthy "luminoso" = true := by decide
  have h5 : pyTruthy "silenzioso" = true := by decide
  have h6 : pyTruthy "mercato" = true := by decide
  simp [h1, h2, h3, h4, h5, h6]

/-- Witness for C4 (amended): a description mentioning none of the
synonyms still gets all six multi-synonym flags set. -/
theorem c4_multi_synonym_flags_always_one_witness :
    (parse_description [("description", PyVal.str "bilocale ristrutturato")]).map
      (fun o => (o.subway, o.station, o.university, o.bright, o.quiet, o.market)) =
      .ok (1, 1, 1, 1, 1, 1) := by
  have hsome : (parse_description [("description", PyVal.str "bilocale ristrutturato")]).toOption.isSome = true := by
    decide
  cases h : parse_description [("description", PyVal.str "bilocale ristrutturato")] with
  | error e => rw [h] at hsome; simp [Except.toOption] at hsome
  | ok out =>
    have hc := c4_multi_synonym_flags_always_one _ "bilocale ristrutturato" _ (by decide) h
    simp [Except.map, hc.1, hc.2.1, hc.2.2.1, hc.2.2.2.1, hc.2.2.2.2.1, hc.2.2.2.2.2]

/-- Claim C5: the price parser maps `"1.200/mese"` to `1200.0` and
garbage to null; but the condo-fee parser strips dots before its
vocabulary test, so the vocabulary's own `"n.d."` entry is
unreachable and `"n.d."` maps to null, not `0.0` (dot-free vocabulary
entries such as `"non indicato"` do map to `0.0`). -/
theorem c5_price_and_fee_eval :
    clean_price [("price", PyVal.str "1.200/mese")] false = .ok (.float 1200) ∧
    clean_price [("price", PyVal.str "garbage!")] false = .ok PyVal.none ∧
    noFeeVocab.contains "n.d." = true ∧
    clean_spese_condominio [("condo_fees", PyVal.str "n.d.")] false = .ok PyVal.none ∧
    clean_spese_condominio [("condo_fees", PyVal.str "N.D.")] false = .ok PyVal.none ∧
    clean_spese_condominio [("condo_fees", PyVal.str "non indicato")] false = .ok (.float 0) ∧
    clean_spese_condominio [("condo_fees", PyVal.str "garbage!")] false = .ok PyVal.none := by decide

/-- Counterexample to C8 as stated: `"1a"` contains an alphabetic
character, but because its first character is a digit the class is
null (while the consumption value `1` is still extracted). -/
theorem c8_class_not_from_first_alpha :
    clean_energy_efficiency [("energy_efficiency", PyVal.str "1a")] false =
      .ok ⟨Option.none, some 1⟩ ∧
    (pyStrip "1a").data.any Char.isAlpha = true := by decide

/-- Claim C8 (amended): the class letter is extracted from the first
character of the trimmed input exactly when that character is
alphabetic (not from the first alphabetic character anywhere); the
consumption value is the first numeric token with `,` normalized to
`.`; the two extractions degrade to null independently. -/
theorem c8_energy_class_and_consumption (row : Row) (s : String) (out : EnergyOut)
    (hget : rowGetItem row "energy_efficiency" = .ok (.str s))
    (hrun : clean_energy_efficiency row false = .ok out) :
    (∀ c cs, (pyStrip s).data = c :: cs →
       out.energy_efficiency_class = (if c.isAlpha then some c.toUpper else Option.none)) ∧
    ((pyStrip s).data = [] → out.energy_efficiency_class = Option.none) ∧
    out.energy_efficiency_consumption_kwh =
      (match searchNumToken (pyStrip s).data with
       | some tok => parseFloat (pyReplace ⟨tok⟩ "," ".")
       | Option.none => Option.none) := by
  unfold clean_energy_efficiency at hrun
  rw [hget] at hrun
  dsimp only at hrun
  simp only [Except.ok.injEq] at hrun
  subst hrun
  refine ⟨fun c cs hc => ?_, fun hnil => ?_, rfl⟩
  · simp only [hc]
  · simp only [hnil]

/-- Witness for C8 (amended): `"G 175,50 kWh/m² anno"` yields class
`G` and consumption `175.5`. -/
theorem c8_energy_class_and_consumption_witness :
    (clean_energy_efficiency [("energy_efficiency", PyVal.str "G 175,50 kWh/m² anno")] false).map
      (fun o => (o.energy_efficiency_class, o.energy_efficiency_consumption_kwh)) =
      .ok (some 'G', some (mkRat 3510 20)) := by
  have hsome :
      (clean_energy_efficiency [("energy_efficiency", PyVal.str "G 175,50 kWh/m² anno")] false).toOption.isSome
        = true := by decide
  cases h : clean_energy_efficiency [("energy_efficiency", PyVal.str "G 175,50 kWh/m² anno")] false with
  | error e => rw [h] at hsome; simp [Except.toOption] at hsome
  | ok out =>
    have hc := c8_energy_class_and_consumption _ "G 175,50 kWh/m² anno" _ (by decide) h
    have hclass := hc.1 'G' " 175,50 kWh/m² anno".data (by decide)
    have hcons := hc.2.2
    rw [show (if 'G'.isAlpha then some 'G'.toUpper else Option.none) = some 'G' from by decide] at hclass
    rw [show (match searchNumToken (pyStrip "G 175,50 kWh/m² anno").data with
              | some tok => parseFloat (pyReplace ⟨tok⟩ "," ".")
              | Option.none => Option.none) = some (mkRat 3510 20) from by decide] at hcons
    simp [Except.map, hclass, hcons]

/-- Claim C9 (amended): for every observed `stato` column, each row's
condition one-hot block sums to exactly 1 (the condition is never
null — absence is mapped to the `"Unknown"` category, whose indicator
is then set, not an all-zero row) and each row's renovation one-hot
block sums to 0 or 1, with 0 exactly when the renovation is null. -/
theorem c9_onehot_sums (stati : List StatoOut) (o : StatoOut) (hmem : o ∈ stati) :
    (condDummyRow (condVocabOf stati) o.stato_condition).sum = 1 ∧
    ((renDummyRow (renVocabOf stati) o.stato_renovation).sum = 0 ∨
     (renDummyRow (renVocabOf stati) o.stato_renovation).sum = 1) ∧
    (o.stato_renovation = Option.none →
       (renDummyRow (renVocabOf stati) o.stato_renovation).sum = 0) ∧
    parse_stato [("condition", PyVal.none)] = .ok ⟨"Unknown", Option.none⟩ := by
  have hcondmem : o.stato_condition ∈ condVocabOf stati := by
    unfold condVocabOf
    exact List.mem_dedup.mpr (List.mem_map_of_mem _ hmem)
  have hcond : (condDummyRow (condVocabOf stati) o.stato_condition).sum = 1 :=
    indicator_sum_of_mem (List.nodup_dedup _) hcondmem
  have hren_none : o.stato_renovation = Option.none →
      (renDummyRow (renVocabOf stati) o.stato_renovation).sum = 0 := by
    intro hn
    unfold renDummyRow
    rw [hn]
    apply List.sum_eq_zero
    intro x hx
    rcases List.mem_map.mp hx with ⟨u, _, hu⟩
    simpa using hu.symm
  refine ⟨hcond, ?_, hren_none, by decide⟩
  cases hr : o.stato_renovation with
  | none => exact Or.inl (hr ▸ hren_none hr)
  | some sv =>
    refine Or.inr ?_
    have hmem2 : sv ∈ renVocabOf stati := by
      unfold renVocabOf
      refine List.mem_dedup.mpr ?_
      refine List.mem_filterMap.mpr ⟨some sv, ?_, rfl⟩
      rw [← hr]
      exact List.mem_map_of_mem _ hmem
    have hs := indicator_sum_of_mem (a := sv) (List.nodup_dedup _) hmem2
    unfold renDummyRow
    simp only [Option.some.injEq]
    exact hs

/-- Witness for C9 (amended): a two-row `stato` column with one
renovated row and one defaulted row. -/
theorem c9_onehot_sums_witness :
    (condDummyRow
       (condVocabOf [⟨"Buono", some "Ristrutturato"⟩, ⟨"Unknown", Option.none⟩]) "Buono").sum = 1 :=
  (c9_onehot_sums [⟨"Buono", some "Ristrutturato"⟩, ⟨"Unknown", Option.none⟩]
    ⟨"Buono", some "Ristrutturato"⟩ (by simp)).1

/-- Counterexample to C9 as stated: a row whose raw condition cell is
missing gets condition `"Unknown"`, and its condition one-hot block
(over the observed vocabulary) sums to 1, not the claimed all-zero
row. -/
theorem c9_absent_condition_not_all_zero :
    parse_stato [("condition", PyVal.none)] = .ok ⟨"Unknown", Option.none⟩ ∧
    (condDummyRow (condVocabOf [⟨"Unknown", Option.none⟩]) "Unknown").sum = 1 := by decide

/-- Witness for C7: `"affitto libero"` has no `N+M` pattern, so the
rent flag is set and both durations are `0`; `"Affitto concordato
3+2"` has the pattern and yields the captured durations 3 and 2. -/
theorem c7_contract_durations_witness :
    (clean_contratto [("contract", PyVal.str "affitto libero")] false).map
      (fun o => (o.rent, o.rent_min_duration, o.rent_renewal_duration)) =
      .ok (true, some 0, some 0) ∧
    (clean_contratto [("contract", PyVal.str "Affitto concordato 3+2")] false).map
      (fun o => (o.rent, o.rent_min_duration, o.rent_renewal_duration)) =
      .ok (true, some 3, some 2) := by
  constructor
  · have hsome : (clean_contratto [("contract", PyVal.str "affitto libero")] false).toOption.isSome = true := by
      decide
    cases h : clean_contratto [("contract", PyVal.str "affitto libero")] false with
    | error e => rw [h] at hsome; simp [Except.toOption] at hsome
    | ok out =>
      have hc := c7_contract_durations _ "affitto libero" _ (by decide) h
      have h0 := hc.1 (by decide)
      have hr := hc.2.2 (by decide)
      simp [Except.map, h0.1, h0.2, hr]
  · have hsome :
        (clean_contratto [("contract", PyVal.str "Affitto concordato 3+2")] false).toOption.isSome = true := by
      decide
    cases h : clean_contratto [("contract", PyVal.str "Affitto concordato 3+2")] false with
    | error e => rw [h] at hsome; simp [Except.toOption] at hsome
    | ok out =>
      have hc := c7_contract_durations _ "Affitto concordato 3+2" _ (by decide) h
      have h32 := hc.2.1 ['3'] ['2'] (by decide)
      have hr := hc.2.2 (by decide)
      have hmin : out.rent_min_duration = some 3 := by
        rw [h32.1]; decide
      have hren : out.rent_renewal_duration = some 2 := by
        rw [h32.2]; decide
      simp [Except.map, hmin, hren, hr]
